import Mathlib

/-!
Shallow embedding of the `argon2-rs` wrapper crate (`src/lib.rs`).

The crate is a thin shim: it builds an `argon2_context` and calls the
external native core `argon2_ctx` from the `argon2-sys` crate.  The native
core and the `error.rs` module of the crate are not present under `src/`, so:

* the native core is represented by an arbitrary function argument
  `core : argon2_context → Int × List Nat` (return code and the bytes it
  writes into the output buffer) — every Lean function is deterministic,
  matching the statement of the spec that the algorithm contains no randomness;
* its input-validation stage and the error-translation layer are modelled
  from the spec (sections 3, 4.1, 7, 8), in definitions whose doc comments
  say so.

Bytes are modelled as `Nat` (values < 256 in all concrete inputs); machine
integer casts from the source (`as u32`, `as usize`) are explicit `% 2^32`
and `% 2^64`.
-/

/-- The algorithm variant enum from `src/lib.rs`. -/
inductive Algorithm where
  | Argon2d
  | Argon2i
  | Argon2id
deriving DecidableEq, Repr

/-- Discriminant values of `Algorithm` (`Argon2d = 0`, `Argon2i = 1`, `Argon2id = 2`). -/
def Algorithm.toNat : Algorithm → Nat
  | .Argon2d => 0
  | .Argon2i => 1
  | .Argon2id => 2

/-- Derived `Default` for `Algorithm`: the `#[default]` variant is `Argon2id`. -/
def Algorithm.default : Algorithm := .Argon2id

/-- The version enum from `src/lib.rs` (`repr(u32)`): versions 0x10 and 0x13. -/
inductive Version where
  | V0x10
  | V0x13
deriving DecidableEq, Repr

/-- Discriminant values of `Version` (`V0x10 = 0x10`, `V0x13 = 0x13`). -/
def Version.toNat : Version → Nat
  | .V0x10 => 0x10
  | .V0x13 => 0x13

/-- Derived `Default` for `Version`: the `#[default]` variant is `V0x13`. -/
def Version.default : Version := .V0x13

/-- Constant `pub const RECOMMENDED_HASH_LENGTH: u64 = 64` from `src/lib.rs`. -/
def RECOMMENDED_HASH_LENGTH : Nat := 64

/-- The `Argon2` struct from `src/lib.rs`.  `m_cost`, `t_cost`, `p_cost`
are `u32`; `hash_length` is `u64`; all modelled as `Nat`. -/
structure Argon2 where
  m_cost : Nat
  t_cost : Nat
  p_cost : Nat
  hash_length : Nat
  algorithm : Algorithm
  version : Version
deriving DecidableEq, Repr

/-- Derived `Default` for `Argon2`: every numeric field defaults to 0,
`algorithm` to `Algorithm::default()` and `version` to `Version::default()`. -/
def Argon2.default : Argon2 :=
  { m_cost := 0
    t_cost := 0
    p_cost := 0
    hash_length := 0
    algorithm := Algorithm.default
    version := Version.default }

/-- Constructor `Argon2::new(m_cost, t_cost, p_cost)` from `src/lib.rs` lines 105-113:
sets the three costs, `hash_length` to `RECOMMENDED_HASH_LENGTH`, and the
rest from `Default::default()`. -/
def Argon2.new (m_cost t_cost p_cost : Nat) : Argon2 :=
  { Argon2.default with
    m_cost := m_cost
    t_cost := t_cost
    p_cost := p_cost
    hash_length := RECOMMENDED_HASH_LENGTH }

/-- Builder method `Argon2::with_algorithm` from `src/lib.rs` lines 115-118. -/
def Argon2.with_algorithm (self : Argon2) (algorithm : Algorithm) : Argon2 :=
  { self with algorithm := algorithm }

/-- Builder method `Argon2::with_version` from `src/lib.rs` lines 120-123. -/
def Argon2.with_version (self : Argon2) (version : Version) : Argon2 :=
  { self with version := version }

/-- Builder method `Argon2::with_hash_length` from `src/lib.rs` lines 125-128. -/
def Argon2.with_hash_length (self : Argon2) (hash_length : Nat) : Argon2 :=
  { self with hash_length := hash_length }

/-- Preset `Argon2::very_fast()` from `src/lib.rs` lines 180-188. -/
def Argon2.very_fast : Argon2 :=
  { Argon2.default with
    m_cost := 128000
    t_cost := 8
    p_cost := 1
    hash_length := RECOMMENDED_HASH_LENGTH }

/-- Preset `Argon2::fast()` from `src/lib.rs` lines 190-198. -/
def Argon2.fast : Argon2 :=
  { Argon2.default with
    m_cost := 256000
    t_cost := 16
    p_cost := 1
    hash_length := RECOMMENDED_HASH_LENGTH }

/-- Preset `Argon2::balanced()` from `src/lib.rs` lines 200-208. -/
def Argon2.balanced : Argon2 :=
  { Argon2.default with
    m_cost := 1024000
    t_cost := 8
    p_cost := 1
    hash_length := RECOMMENDED_HASH_LENGTH }

/-- Preset `Argon2::slow()` from `src/lib.rs` lines 210-218. -/
def Argon2.slow : Argon2 :=
  { Argon2.default with
    m_cost := 2048000
    t_cost := 8
    p_cost := 1
    hash_length := RECOMMENDED_HASH_LENGTH }

/-- Preset `Argon2::very_slow()` from `src/lib.rs` lines 220-228. -/
def Argon2.very_slow : Argon2 :=
  { Argon2.default with
    m_cost := 3072000
    t_cost := 8
    p_cost := 1
    hash_length := RECOMMENDED_HASH_LENGTH }

/-- Constant `ARGON2_DEFAULT_FLAGS` imported from `argon2-sys` (reference header value 0:
no clear-password / clear-secret flag set). -/
def ARGON2_DEFAULT_FLAGS : Nat := 0

/-- The `argon2_context` struct passed to the native core (`src/lib.rs` lines
144-163).  Null pointers (`secret`, `ad`) are modelled as `none`; the
callback fields, always `None` in the source, are omitted as they carry no
data. -/
structure argon2_context where
  outlen : Nat
  pwd : List Nat
  pwdlen : Nat
  salt : List Nat
  saltlen : Nat
  secret : Option (List Nat)
  secretlen : Nat
  ad : Option (List Nat)
  adlen : Nat
  t_cost : Nat
  m_cost : Nat
  lanes : Nat
  threads : Nat
  version : Nat
  flags : Nat
deriving DecidableEq, Repr

/-- The context literal built inside `Argon2::hash_password` (`src/lib.rs`
lines 144-163): `out` points at a buffer of `hash_length` zero bytes,
`outlen = hash_length as u32`, password and salt lengths are `as u32` casts,
`secret`/`ad` are null with zero lengths, `lanes = threads = p_cost`. -/
def build_context (self : Argon2) (password salt : List Nat) : argon2_context :=
  { outlen := self.hash_length % 2 ^ 32
    pwd := password
    pwdlen := password.length % 2 ^ 32
    salt := salt
    saltlen := salt.length % 2 ^ 32
    secret := none
    secretlen := 0
    ad := none
    adlen := 0
    t_cost := self.t_cost
    m_cost := self.m_cost
    lanes := self.p_cost
    threads := self.p_cost
    version := self.version.toNat
    flags := ARGON2_DEFAULT_FLAGS }

/-- Modelled from the spec: the error taxonomy of the absent `error.rs`
module (spec section 7): parameter errors, allocation failure, internal
errors. -/
inductive DerivationError where
  | ParameterError (code : Int)
  | AllocationError
  | InternalError
deriving DecidableEq, Repr

/-- Modelled from the spec: `map_argon2_error` from the absent `error.rs`
translates a nonzero native return code into the spec section 7 taxonomy.
The spec fixes the three categories but not the numeric codes; the reference
allocation code (-22) is mapped to `AllocationError`, other negative codes
to `ParameterError`, anything else to `InternalError`. -/
def map_argon2_error (code : Int) : DerivationError :=
  if code = -22 then .AllocationError
  else if code < 0 then .ParameterError code
  else .InternalError

/-- The `Error` enum of the crate (absent `error.rs`): wraps a derivation error. -/
inductive Error where
  | Argon2 (e : DerivationError)
deriving DecidableEq, Repr

/-- Mirror of `Result<Vec<u8>, Error>`, the return type of `Argon2::hash_password`. -/
inductive HashResult where
  | ok (value : List Nat)
  | err (e : Error)
deriving DecidableEq, Repr

/-- Observable outcome of one `hash_password` call: the returned `Result`
plus the final contents of the salt buffer (mutably owned and possibly
zeroized) and of the password buffer (borrowed, never written). -/
structure HashOutcome where
  result : HashResult
  saltAfter : List Nat
  passwordAfter : List Nat
deriving DecidableEq, Repr

/-- In-place write of `w` into the front of buffer `buf`: the buffer keeps
its length; bytes of `w` beyond the buffer are not written. -/
def writeInto (buf w : List Nat) : List Nat :=
  w.take buf.length ++ buf.drop w.length

/-- Function `Argon2::hash_password` from `src/lib.rs` lines 141-175.
`zeroizeFeature` is the `zeroize` cargo feature; `core` is the external
native `argon2_ctx`, returning its `c_int` code and the bytes it wrote into
the output buffer.  The source allocates `vec![0u8; hash_length as usize]`,
builds the context, calls the core, zeroizes the salt (feature-gated, before
the error check, hence on both exit paths), then returns `Err` on a nonzero
code and `Ok(hash_buffer)` otherwise. -/
def Argon2.hash_password (zeroizeFeature : Bool)
    (core : argon2_context → Int × List Nat)
    (self : Argon2) (password salt : List Nat) : HashOutcome :=
  let hash_buffer : List Nat := List.replicate (self.hash_length % 2 ^ 64) 0
  let context := build_context self password salt
  let r := core context
  let saltAfter := if zeroizeFeature then List.replicate salt.length 0 else salt
  if r.1 ≠ 0 then
    { result := .err (Error.Argon2 (map_argon2_error r.1))
      saltAfter := saltAfter
      passwordAfter := password }
  else
    { result := .ok (writeInto hash_buffer r.2)
      saltAfter := saltAfter
      passwordAfter := password }

/-- Modelled from the spec: the input-validation stage of the native core
(spec sections 3, 4.1, 8), absent from `src/`.  Bounds checked before any
computation: `memory_cost ≥ 8 × lanes`, `time_cost ≥ 1`,
`1 ≤ parallelism ≤ 2^24 − 1`, `4 ≤ output_length`.  Salt length is NOT
checked: per spec section 8, a salt shorter than 8 bytes is accepted
(documented, not enforced).  Nonzero return codes follow the reference
header numbering; only their nonzero-ness is fixed by the spec. -/
def validate_inputs (ctx : argon2_context) : Int :=
  if ctx.outlen < 4 then -6
  else if ctx.t_cost < 1 then -4
  else if ctx.lanes < 1 then -16
  else if 2 ^ 24 - 1 < ctx.lanes then -17
  else if ctx.m_cost < 8 * ctx.lanes then -14
  else 0

/-- Modelled from the spec: the native `argon2_ctx` entry point factored as
validation followed by derivation (spec section 2 control flow:
Validator → ... → output).  `derive` is the memory-hard derivation itself,
consulted only when validation passes. -/
def argon2_ctx (derive : argon2_context → List Nat) (ctx : argon2_context) :
    Int × List Nat :=
  let code := validate_inputs ctx
  if code ≠ 0 then (code, []) else (0, derive ctx)

/-- Concrete stand-in derivation used to instantiate witnesses: fills the
output region with the byte 1. -/
def constDerive (ctx : argon2_context) : List Nat :=
  List.replicate ctx.outlen 1

/-- Concrete alternative derivation for independence witnesses. -/
def emptyDerive (_ : argon2_context) : List Nat := []

lemma writeInto_length (buf w : List Nat) : (writeInto buf w).length = buf.length := by
  simp [writeInto]
  omega

lemma hash_password_result_spec (z : Bool) (core : argon2_context → Int × List Nat)
    (self : Argon2) (password salt : List Nat) :
    (Argon2.hash_password z core self password salt).result =
      (if (core (build_context self password salt)).1 ≠ 0 then
        HashResult.err (Error.Argon2 (map_argon2_error (core (build_context self password salt)).1))
      else
        HashResult.ok (writeInto (List.replicate (self.hash_length % 2 ^ 64) 0)
          (core (build_context self password salt)).2)) := by
  unfold Argon2.hash_password
  by_cases h : (core (build_context self password salt)).1 ≠ 0 <;> simp [h]

lemma argon2_ctx_fst (derive : argon2_context → List Nat) (ctx : argon2_context) :
    (argon2_ctx derive ctx).1 = validate_inputs ctx := by
  unfold argon2_ctx
  by_cases h : validate_inputs ctx ≠ 0
  · simp [h]
  · rw [not_not] at h
    simp [h]

/-- C1: for every fixed configuration, password and salt, two calls to
`Argon2::hash_password` (with the same external core) return identical
results — the embedding is a pure function of its inputs, and the source
consults no randomness source. -/
theorem hash_password_deterministic (z : Bool)
    (core : argon2_context → Int × List Nat) (self : Argon2)
    (password password' salt salt' : List Nat)
    (hpw : password = password') (hs : salt = salt') :
    (Argon2.hash_password z core self password salt).result =
      (Argon2.hash_password z core self password' salt').result := by
  rw [hpw, hs]

/-- Witness for C1 at a concrete preset, password and salt. -/
theorem hash_password_deterministic_witness :
    (Argon2.hash_password true (argon2_ctx constDerive) Argon2.very_fast
        [112, 97, 115, 115] [1, 2, 3, 4, 5, 6, 7, 8]).result =
      (Argon2.hash_password true (argon2_ctx constDerive) Argon2.very_fast
        [112, 97, 115, 115] [1, 2, 3, 4, 5, 6, 7, 8]).result :=
  hash_password_deterministic true (argon2_ctx constDerive) Argon2.very_fast
    [112, 97, 115, 115] [112, 97, 115, 115] [1, 2, 3, 4, 5, 6, 7, 8]
    [1, 2, 3, 4, 5, 6, 7, 8] rfl rfl

/-- C5: with the `zeroize` feature enabled, `hash_password` zeroes the salt
buffer unconditionally — the scrub happens before the error check, so it
covers the success and the error path alike — while the password buffer is
returned untouched under every feature setting and on every path. -/
theorem hash_password_zeroize_asymmetry
    (core : argon2_context → Int × List Nat) (self : Argon2)
    (password salt : List Nat) :
    ((Argon2.hash_password true core self password salt).saltAfter =
        List.replicate salt.length 0) ∧
      (∀ z : Bool,
        (Argon2.hash_password z core self password salt).passwordAfter = password) := by
  constructor
  · unfold Argon2.hash_password
    by_cases h : (core (build_context self password salt)).1 ≠ 0 <;> simp [h]
  · intro z
    unfold Argon2.hash_password
    by_cases h : (core (build_context self password salt)).1 ≠ 0 <;> simp [h]

/-- C6: the five presets carry exactly the documented parameter triples,
and all of them use a 64-byte hash length, `Argon2id` and version 0x13. -/
theorem presets_spec :
    Argon2.very_fast = ⟨128000, 8, 1, 64, .Argon2id, .V0x13⟩ ∧
      Argon2.fast = ⟨256000, 16, 1, 64, .Argon2id, .V0x13⟩ ∧
      Argon2.balanced = ⟨1024000, 8, 1, 64, .Argon2id, .V0x13⟩ ∧
      Argon2.slow = ⟨2048000, 8, 1, 64, .Argon2id, .V0x13⟩ ∧
      Argon2.very_slow = ⟨3072000, 8, 1, 64, .Argon2id, .V0x13⟩ :=
  ⟨rfl, rfl, rfl, rfl, rfl⟩

/-- C8: `Argon2::new(m, t, p)` sets the three costs as given, a 64-byte
hash length (`RECOMMENDED_HASH_LENGTH`), `Argon2id` and version 0x13; the
derived `Argon2::default()` instead has all costs and the hash length 0. -/
theorem new_and_default_spec (m t p : Nat) :
    (Argon2.new m t p).m_cost = m ∧
      (Argon2.new m t p).t_cost = t ∧
      (Argon2.new m t p).p_cost = p ∧
      (Argon2.new m t p).hash_length = RECOMMENDED_HASH_LENGTH ∧
      RECOMMENDED_HASH_LENGTH = 64 ∧
      (Argon2.new m t p).algorithm = .Argon2id ∧
      (Argon2.new m t p).version = .V0x13 ∧
      Argon2.default.m_cost = 0 ∧
      Argon2.default.t_cost = 0 ∧
      Argon2.default.p_cost = 0 ∧
      Argon2.default.hash_length = 0 :=
  ⟨rfl, rfl, rfl, rfl, rfl, rfl, rfl, rfl, rfl, rfl, rfl⟩

/-- C9: the context handed to the native core never carries a secret key or
associated data (null pointers, zero lengths), and both `lanes` and
`threads` equal `p_cost`. -/
theorem context_no_secret_lanes_eq_threads (self : Argon2)
    (password salt : List Nat) :
    (build_context self password salt).secret = none ∧
      (build_context self password salt).secretlen = 0 ∧
      (build_context self password salt).ad = none ∧
      (build_context self password salt).adlen = 0 ∧
      (build_context self password salt).lanes = self.p_cost ∧
      (build_context self password salt).threads = self.p_cost :=
  ⟨rfl, rfl, rfl, rfl, rfl, rfl⟩

/-- C10: each builder method sets exactly its own field and leaves the
other five fields unchanged. -/
theorem with_methods_frame (self : Argon2) (a : Algorithm) (v : Version)
    (hl : Nat) :
    ((self.with_algorithm a).algorithm = a ∧
      (self.with_algorithm a).m_cost = self.m_cost ∧
      (self.with_algorithm a).t_cost = self.t_cost ∧
      (self.with_algorithm a).p_cost = self.p_cost ∧
      (self.with_algorithm a).hash_length = self.hash_length ∧
      (self.with_algorithm a).version = self.version) ∧
    ((self.with_version v).version = v ∧
      (self.with_version v).m_cost = self.m_cost ∧
      (self.with_version v).t_cost = self.t_cost ∧
      (self.with_version v).p_cost = self.p_cost ∧
      (self.with_version v).hash_length = self.hash_length ∧
      (self.with_version v).algorithm = self.algorithm) ∧
    ((self.with_hash_length hl).hash_length = hl ∧
      (self.with_hash_length hl).m_cost = self.m_cost ∧
      (self.with_hash_length hl).t_cost = self.t_cost ∧
      (self.with_hash_length hl).p_cost = self.p_cost ∧
      (self.with_hash_length hl).algorithm = self.algorithm ∧
      (self.with_hash_length hl).version = self.version) :=
  ⟨⟨rfl, rfl, rfl, rfl, rfl, rfl⟩,
   ⟨rfl, rfl, rfl, rfl, rfl, rfl⟩,
   ⟨rfl, rfl, rfl, rfl, rfl, rfl⟩⟩

lemma hash_password_core_congr (z : Bool)
    (core core' : argon2_context → Int × List Nat) (self : Argon2)
    (password salt : List Nat)
    (h : core (build_context self password salt) =
      core' (build_context self password salt)) :
    Argon2.hash_password z core self password salt =
      Argon2.hash_password z core' self password salt := by
  simp only [Argon2.hash_password]
  rw [h]

lemma argon2_ctx_eq_of_ne (derive : argon2_context → List Nat)
    (ctx : argon2_context) (hv : validate_inputs ctx ≠ 0) :
    argon2_ctx derive ctx = (validate_inputs ctx, []) := by
  unfold argon2_ctx
  simp [hv]

lemma validate_inputs_eq_zero_iff (ctx : argon2_context) :
    validate_inputs ctx = 0 ↔
      (4 ≤ ctx.outlen ∧ 1 ≤ ctx.t_cost ∧ 1 ≤ ctx.lanes ∧
        ctx.lanes ≤ 2 ^ 24 - 1 ∧ 8 * ctx.lanes ≤ ctx.m_cost) := by
  unfold validate_inputs
  split_ifs <;> (try simp) <;> omega

/-- C2: whenever `hash_password` returns `Ok(v)` for a configuration whose
`hash_length` is one of 4, 32, 64, 128 or 1024, the returned vector has
exactly `hash_length` bytes: the output buffer is allocated with that
length and the core writes into it in place. -/
theorem hash_password_length (z : Bool)
    (core : argon2_context → Int × List Nat) (self : Argon2)
    (password salt v : List Nat)
    (hlen : self.hash_length ∈ [4, 32, 64, 128, 1024])
    (hok : (Argon2.hash_password z core self password salt).result =
      HashResult.ok v) :
    v.length = self.hash_length := by
  have hlt : self.hash_length < 2 ^ 64 := by
    simp only [List.mem_cons, List.not_mem_nil, or_false] at hlen
    rcases hlen with h | h | h | h | h <;> rw [h] <;> norm_num
  rw [hash_password_result_spec] at hok
  by_cases h : (core (build_context self password salt)).1 ≠ 0
  · simp [h] at hok
  · simp only [h, if_false, HashResult.ok.injEq] at hok
    rw [← hok, writeInto_length, List.length_replicate, Nat.mod_eq_of_lt hlt]

/-- Witness for C2: a concrete valid configuration whose call returns `Ok`
with a 64-byte vector. -/
theorem hash_password_length_witness :
    (Argon2.new 8 1 1).hash_length ∈ [4, 32, 64, 128, 1024] ∧
      (List.replicate 64 (1 : Nat)).length = (Argon2.new 8 1 1).hash_length :=
  ⟨by decide,
    hash_password_length true (argon2_ctx constDerive) (Argon2.new 8 1 1)
      [112, 97, 115, 115] [1, 2, 3, 4] (List.replicate 64 1)
      (by decide) (by decide)⟩

/-- C3: `hash_password` returns `Err` exactly when the core call returns a
nonzero code, and `Ok` (carrying the hash bytes) exactly when it returns
zero; the function totally returns one of the two `Result` constructors, so
no hash bytes accompany an error and no abort path exists. -/
theorem hash_password_err_iff_nonzero (z : Bool)
    (core : argon2_context → Int × List Nat) (self : Argon2)
    (password salt : List Nat) :
    ((∃ e, (Argon2.hash_password z core self password salt).result =
        HashResult.err e) ↔
      (core (build_context self password salt)).1 ≠ 0) ∧
    ((∃ v, (Argon2.hash_password z core self password salt).result =
        HashResult.ok v) ↔
      (core (build_context self password salt)).1 = 0) := by
  by_cases h : (core (build_context self password salt)).1 = 0 <;>
    simp [hash_password_result_spec, h]

/-- C4: `hash_password` backed by the spec-modelled validating core rejects
`m_cost < 8 × p_cost`, `p_cost = 0` and `hash_length = 0`; on any validation
failure the result does not depend on the derivation at all; and a salt
shorter than 8 bytes is not rejected (a call that is otherwise valid
returns `Ok`). -/
theorem hash_password_validation (z : Bool)
    (derive derive' : argon2_context → List Nat) (self : Argon2)
    (password salt : List Nat) :
    (self.m_cost < 8 * self.p_cost →
      ∃ e, (Argon2.hash_password z (argon2_ctx derive) self password salt).result =
        HashResult.err e) ∧
    (self.p_cost = 0 →
      ∃ e, (Argon2.hash_password z (argon2_ctx derive) self password salt).result =
        HashResult.err e) ∧
    (self.hash_length = 0 →
      ∃ e, (Argon2.hash_password z (argon2_ctx derive) self password salt).result =
        HashResult.err e) ∧
    (validate_inputs (build_context self password salt) ≠ 0 →
      Argon2.hash_password z (argon2_ctx derive) self password salt =
        Argon2.hash_password z (argon2_ctx derive') self password salt) ∧
    (salt.length < 8 → 1 ≤ self.p_cost → self.p_cost ≤ 2 ^ 24 - 1 →
      8 * self.p_cost ≤ self.m_cost → 1 ≤ self.t_cost →
      4 ≤ self.hash_length → self.hash_length < 2 ^ 32 →
      ∃ v, (Argon2.hash_password z (argon2_ctx derive) self password salt).result =
        HashResult.ok v) := by
  have herr : validate_inputs (build_context self password salt) ≠ 0 →
      ∃ e, (Argon2.hash_password z (argon2_ctx derive) self password salt).result =
        HashResult.err e := by
    intro hv
    rw [hash_password_result_spec, argon2_ctx_fst]
    simp [hv]
  refine ⟨?_, ?_, ?_, ?_, ?_⟩
  · intro hm
    refine herr fun hv => ?_
    have := (validate_inputs_eq_zero_iff _).mp hv
    simp only [build_context] at this
    omega
  · intro hp
    refine herr fun hv => ?_
    have := (validate_inputs_eq_zero_iff _).mp hv
    simp only [build_context] at this
    omega
  · intro hh
    refine herr fun hv => ?_
    have := (validate_inputs_eq_zero_iff _).mp hv
    simp only [build_context, hh] at this
    omega
  · intro hv
    exact hash_password_core_congr z (argon2_ctx derive) (argon2_ctx derive')
      self password salt
      (by rw [argon2_ctx_eq_of_ne derive _ hv, argon2_ctx_eq_of_ne derive' _ hv])
  · intro _ hp1 hp2 hm ht hh1 hh2
    have hv : validate_inputs (build_context self password salt) = 0 := by
      rw [validate_inputs_eq_zero_iff]
      simp only [build_context]
      rw [Nat.mod_eq_of_lt hh2]
      exact ⟨hh1, ht, hp1, hp2, hm⟩
    rw [hash_password_result_spec, argon2_ctx_fst]
    simp [hv]

/-- Witness for C4: concrete rejections for a too-small memory cost, a zero
parallelism and a zero hash length; derivation independence on a rejected
input; and an accepted call with a 4-byte salt. -/
theorem hash_password_validation_witness :
    (∃ e, (Argon2.hash_password true (argon2_ctx constDerive) (Argon2.new 7 1 1)
        [1] [2]).result = HashResult.err e) ∧
    (∃ e, (Argon2.hash_password true (argon2_ctx constDerive) (Argon2.new 64 1 0)
        [1] [2]).result = HashResult.err e) ∧
    (∃ e, (Argon2.hash_password true (argon2_ctx constDerive)
        ((Argon2.new 64 1 1).with_hash_length 0) [1] [2]).result =
        HashResult.err e) ∧
    (Argon2.hash_password true (argon2_ctx constDerive) (Argon2.new 7 1 1) [1] [2] =
      Argon2.hash_password true (argon2_ctx emptyDerive) (Argon2.new 7 1 1) [1] [2]) ∧
    (∃ v, (Argon2.hash_password true (argon2_ctx constDerive) (Argon2.new 8 1 1)
        [1] [1, 2, 3, 4]).result = HashResult.ok v) :=
  ⟨(hash_password_validation true constDerive emptyDerive (Argon2.new 7 1 1)
      [1] [2]).1 (by decide),
   (hash_password_validation true constDerive emptyDerive (Argon2.new 64 1 0)
      [1] [2]).2.1 (by decide),
   (hash_password_validation true constDerive emptyDerive
      ((Argon2.new 64 1 1).with_hash_length 0) [1] [2]).2.2.1 (by decide),
   (hash_password_validation true constDerive emptyDerive (Argon2.new 7 1 1)
      [1] [2]).2.2.2.1 (by decide),
   (hash_password_validation true constDerive emptyDerive (Argon2.new 8 1 1)
      [1] [1, 2, 3, 4]).2.2.2.2 (by decide) (by decide) (by decide) (by decide)
      (by decide) (by decide) (by decide)⟩
